import Mathlib

/-!
Verification of the quality REST-API client `src/quality/quality_api.py`
(repository `sam-quality`).

The module is a flat set of async request builders over `httpx`.  We embed it
shallowly:

* decoded JSON payloads are values of the inductive type `Json` (Python's
  `response.json()` returns raw dicts/lists; the `TypedDict` declarations in
  the source perform no runtime validation, so payloads are modelled
  untyped, exactly as the code manipulates them);
* the network is a parameter `net : Net` mapping the fully built
  `HttpRequest` to either a response (status + decoded body) or a
  transport-level failure (`httpx.ConnectError` / `httpx.TimeoutException`,
  both subclasses of `httpx.HTTPError` but not of `httpx.HTTPStatusError`);
* a client function returns the pair of its Python outcome
  (`Except PyError α`: normal return or raised exception) and the list of
  HTTP requests it issued, in order;
* Python floats are modelled as `Rat` (no claim depends on rounding);
* CPython call binding is modelled explicitly by `bindCall`, because the
  module's internal call sites pass arguments that the callees' signatures
  do not accept, which raises `TypeError` at the call site before the callee
  body (and hence before any HTTP request) runs.
-/

/-- A decoded JSON value, the result of `response.json()`. `null` decodes to
Python `None`, objects to `dict` (keys unique, insertion ordered), arrays to
`list`, numbers to `int`/`float` (modelled uniformly as `Rat`). -/
inductive Json where
  | null : Json
  | bool (b : Bool) : Json
  | num (q : Rat) : Json
  | str (s : String) : Json
  | arr (elements : List Json) : Json
  | obj (fields : List (String × Json)) : Json

/-- Python `d.get(k)` on a decoded JSON object: the value of the first
binding of `k`, or `none` when the key is absent (dict keys are unique, so
first binding is the binding).  The client only ever applies `.get` to
payloads that are objects. -/
def Json.getKey : Json → String → Option Json
  | Json.obj fields, k => fields.lookup k
  | _, _ => none

/-- A query-parameter value as handed to `httpx` (`params=` mapping). -/
inductive ParamValue where
  | i (n : Int) : ParamValue
  | f (q : Rat) : ParamValue
  | s (v : String) : ParamValue

/-- The fully built HTTP request handed to `httpx.AsyncClient.request`
by `_make_request` (line 165-172 of the source). -/
structure HttpRequest where
  method : String
  url : String
  headers : List (String × String)
  jsonData : Option Json
  params : Option (List (String × ParamValue))
  timeout : Nat

/-- A server response: HTTP status and decoded JSON body (the body is also
what `httpx.HTTPStatusError` carries via its `response` attribute). -/
structure HttpResponse where
  status : Nat
  body : Json

/-- Outcome of putting one request on the wire: either a response arrived,
or the transport failed (connect/timeout — `httpx.HTTPError` without a
response, i.e. not an `httpx.HTTPStatusError`). -/
inductive NetOutcome where
  | resp (r : HttpResponse) : NetOutcome
  | transportFail (msg : String) : NetOutcome

/-- The environment: what the network/server does for each request. -/
def Net : Type := HttpRequest → NetOutcome

/-- Exceptions a call of this module can raise. -/
inductive PyError where
  /-- built-in `TypeError` (e.g. call-binding failure). Not an `httpx` error. -/
  | typeError (msg : String) : PyError
  /-- `httpx.HTTPStatusError`, raised by `response.raise_for_status()`;
  carries the response's status code and body. -/
  | httpStatusError (status : Nat) (body : Json) : PyError
  /-- a transport-level `httpx.HTTPError` (connect error, timeout, ...)
  that is not an `HTTPStatusError`. -/
  | transportError (msg : String) : PyError

/-- `true` exactly on `PyError.typeError`. -/
def PyError.isTypeError : PyError → Bool
  | PyError.typeError _ => true
  | _ => false

/-- `true` exactly on a normal (non-raising) outcome. -/
def exceptIsOk {ε α : Type} : Except ε α → Bool
  | Except.ok _ => true
  | Except.error _ => false

/-- Line 131: `DEFAULT_BASE_URL = "http://localhost:8080/api/v1"`. -/
def DEFAULT_BASE_URL : String := "http://localhost:8080/api/v1"

/-- Line 171: headers sent on every request. -/
def requestHeaders : List (String × String) :=
  [("Content-Type", "application/json"), ("Accept", "application/json")]

/-- The request `_make_request` builds: URL is the verbatim concatenation
`f"{base_url}{endpoint}"` (line 163), headers as at line 171. -/
def request_of (method endpoint base_url : String) (json_data : Option Json)
    (params : Option (List (String × ParamValue))) (timeout : Nat) : HttpRequest :=
  { method := method
    url := base_url ++ endpoint
    headers := requestHeaders
    jsonData := json_data
    params := params
    timeout := timeout }

/-- `_make_request` (lines 138-174): build the URL, issue the request, then
`response.raise_for_status()` — `httpx` raises `HTTPStatusError` on every
non-2xx status (success means `200 <= status < 300`), carrying the response.
Returns the outcome together with the single request issued. -/
def make_request (net : Net) (method endpoint base_url : String)
    (json_data : Option Json) (params : Option (List (String × ParamValue)))
    (timeout : Nat) : Except PyError HttpResponse × List HttpRequest :=
  let req := request_of method endpoint base_url json_data params timeout
  (match net req with
   | NetOutcome.transportFail msg => Except.error (PyError.transportError msg)
   | NetOutcome.resp r =>
       if 200 ≤ r.status ∧ r.status ≤ 299 then Except.ok r
       else Except.error (PyError.httpStatusError r.status r.body),
   [req])

/-- `response.json()` applied to the dispatcher's outcome. -/
def response_json (r : Except PyError HttpResponse × List HttpRequest) :
    Except PyError Json × List HttpRequest :=
  (r.fst.map HttpResponse.body, r.snd)

/-- Message of CPython's `TypeError` for too many positional arguments. -/
def arity_error_msg (fname : String) (accepted npos : Nat) : String :=
  fname ++ "() takes " ++ toString accepted ++
    " positional arguments but " ++ toString npos ++ " were given"

/-- Message of CPython's `TypeError` for an unexpected keyword argument. -/
def kwarg_error_msg (fname kw : String) : String :=
  fname ++ "() got an unexpected keyword argument " ++ kw

/-- CPython call binding for the module's functions (all parameters are
positional-or-keyword, `*args`/`**kwargs` never occur): binding a call with
`npos` positional arguments and keyword arguments `kw` against the declared
parameter names `accepted` raises `TypeError` — before the callee body runs,
hence before any HTTP request — when there are more positional arguments
than parameters or when a keyword is not a declared parameter. -/
def bindCall (fname : String) (accepted : List String) (npos : Nat)
    (kw : List String) : Except PyError Unit :=
  if accepted.length < npos then
    Except.error (PyError.typeError (arity_error_msg fname accepted.length npos))
  else
    match kw.find? (fun k => ! accepted.contains k) with
    | some k => Except.error (PyError.typeError (kwarg_error_msg fname k))
    | none => Except.ok ()

/-- Parameter names of `async def get_result_by_id(result_id: int, )`
(line 181).  The former `base_url` parameter is now the annotated local
assignment at line 182, not a parameter. -/
def get_result_by_id_params : List String := ["result_id"]

/-- Parameter names of `get_all_results` (lines 312-315). -/
def get_all_results_params : List String := ["page", "size"]

/-- Parameter names of `get_passed_results` (lines 496-500). -/
def get_passed_results_params : List String := ["page", "size"]

/-- Parameter names of `get_result_by_lot_id` (line 605). -/
def get_result_by_lot_id_params : List String := ["lot_id"]

/-- Parameter names of `get_high_risk_results` (lines 737-740). -/
def get_high_risk_results_params : List String := ["threshold"]

/-- Parameter names of `get_failed_results` (lines 874-877). -/
def get_failed_results_params : List String := ["page", "size"]

/-- Parameter names of `get_results_by_defect_type` (line 983). -/
def get_results_by_defect_type_params : List String := ["defect_type"]

/-- Parameter names of `get_quality_summary` (line 1122). -/
def get_quality_summary_params : List String := ["result_id"]

/-- Parameter names of `get_quality_statistics` (line 1207). -/
def get_quality_statistics_params : List String := ([] : List String)

/-- Parameter names of `safe_get_result` (line 1304). -/
def safe_get_result_params : List String := ["result_id"]

/-- `get_result_by_id` (lines 181-309): signature `(result_id: int, )`;
the body sets the local `base_url: str = DEFAULT_BASE_URL` (line 182) and
issues `GET f"/quality/results/{result_id}"` via `_make_request` with
default `json_data=None`, `params=None`, `timeout=30`, returning
`response.json()`. -/
def get_result_by_id (net : Net) (result_id : Int) :
    Except PyError Json × List HttpRequest :=
  let base_url := DEFAULT_BASE_URL
  response_json (make_request net "GET"
    ("/quality/results/" ++ toString result_id) base_url none none 30)

/-- The `params` dict built by `get_all_results` / `get_passed_results` /
`get_failed_results` (lines 486-490, 596-600, 974-978): start from `{}`,
insert `"page"` when `page is not None`, then `"size"` when
`size is not None`. -/
def page_size_accum (page size : Option Int) : List (String × ParamValue) :=
  (match page with
   | some p => [("page", ParamValue.i p)]
   | none => []) ++
  (match size with
   | some s => [("size", ParamValue.i s)]
   | none => [])

/-- `get_all_results` (lines 312-493): builds the page/size params and calls
`_make_request("GET", "/quality/results", base_url=DEFAULT_BASE_URL,
params=params if params else None)` (an empty dict is falsy, so omitting
both arguments sends no params mapping at all). -/
def get_all_results (net : Net) (page size : Option Int) :
    Except PyError Json × List HttpRequest :=
  let params := page_size_accum page size
  response_json (make_request net "GET" "/quality/results" DEFAULT_BASE_URL
    none (if params.isEmpty then none else some params) 30)

/-- `get_passed_results` (lines 496-602): local
`base_url: str = DEFAULT_BASE_URL` (line 501), then as `get_all_results`
against `/quality/results/passed`. -/
def get_passed_results (net : Net) (page size : Option Int) :
    Except PyError Json × List HttpRequest :=
  let base_url := DEFAULT_BASE_URL
  let params := page_size_accum page size
  response_json (make_request net "GET" "/quality/results/passed" base_url
    none (if params.isEmpty then none else some params) 30)

/-- `get_result_by_lot_id` (lines 605-734): signature `(lot_id: int, )`,
local `base_url` (line 606), `GET f"/quality/results/lot/{lot_id}"`. -/
def get_result_by_lot_id (net : Net) (lot_id : Int) :
    Except PyError Json × List HttpRequest :=
  let base_url := DEFAULT_BASE_URL
  response_json (make_request net "GET"
    ("/quality/results/lot/" ++ toString lot_id) base_url none none 30)

/-- `get_high_risk_results` (lines 737-871): signature
`(threshold: float = 0.7, )`, local `base_url` (line 741);
`params = {"threshold": threshold}` (line 869) is always non-empty and is
passed as-is (line 870). -/
def get_high_risk_results (net : Net) (threshold : Rat) :
    Except PyError Json × List HttpRequest :=
  let base_url := DEFAULT_BASE_URL
  let params := [("threshold", ParamValue.f threshold)]
  response_json (make_request net "GET" "/quality/results/high-risk" base_url
    none (some params) 30)

/-- Default of the `threshold` parameter of `get_high_risk_results`
(line 738: `threshold: float = 0.7`). -/
def high_risk_default_threshold : Rat := 7/10

/-- `get_high_risk_results()` called without arguments: the signature
default `threshold = 0.7` applies. -/
def get_high_risk_results_default (net : Net) :
    Except PyError Json × List HttpRequest :=
  get_high_risk_results net high_risk_default_threshold

/-- `get_failed_results` (lines 874-980): local `base_url` (line 878), then
as `get_all_results` against `/quality/results/failed`. -/
def get_failed_results (net : Net) (page size : Option Int) :
    Except PyError Json × List HttpRequest :=
  let base_url := DEFAULT_BASE_URL
  let params := page_size_accum page size
  response_json (make_request net "GET" "/quality/results/failed" base_url
    none (if params.isEmpty then none else some params) 30)

/-- `get_results_by_defect_type` (lines 983-1115): signature
`(defect_type: str, )`, local `base_url` (line 984),
`GET f"/quality/results/defect/{defect_type}"`. -/
def get_results_by_defect_type (net : Net) (defect_type : String) :
    Except PyError Json × List HttpRequest :=
  let base_url := DEFAULT_BASE_URL
  response_json (make_request net "GET"
    ("/quality/results/defect/" ++ defect_type) base_url none none 30)

/-- `result.get(k) == -1` in Python: `None == -1` is `False`; a decoded
number compares numerically; a decoded `bool` compares as `0`/`1`
(`bool` is an `int` subtype); any other value is not equal to an int. -/
def jsonEqInt (v : Option Json) (n : Int) : Bool :=
  match v with
  | some (Json.num q) => q == (n : Rat)
  | some (Json.bool b) => (if b then (1 : Rat) else 0) == (n : Rat)
  | _ => false

/-- Numeric reading of an optional JSON value with default `0`: models both
`d.get(k, 0)` on an absent key and `d.get(k, 0) or 0` on a `null` value
(`None or 0` is `0`; a falsy `0.0` is also replaced by `0`, the same value).
A decoded `bool` counts as `0`/`1`.  The payload contract makes these the
only shapes that occur. -/
def jsonNumOrZero (v : Option Json) : Rat :=
  match v with
  | some (Json.num q) => q
  | some (Json.bool b) => if b then 1 else 0
  | _ => 0

/-- `result.get("defectType") is not None`: `False` on an absent key and on
a decoded JSON `null` (both give Python `None`), `True` otherwise. -/
def isNotNone (v : Option Json) : Bool :=
  match v with
  | none => false
  | some Json.null => false
  | some _ => true

/-- The dict returned by `get_quality_summary` (lines 1198-1204), as a
record. -/
structure QualitySummary where
  result : Json
  is_passed : Bool
  is_high_risk : Bool
  has_defects : Bool
  summary_generated_at : String

/-- Record construction of `get_quality_summary` (lines 1198-1204), applied
to a fetched result:
`is_passed = (result.get("classification") == -1)`,
`is_high_risk = (result.get("predictedRisk", 0) > 0.7)`,
`has_defects = (result.get("defectType") is not None)`,
`summary_generated_at = datetime.now().isoformat()` (the process clock,
passed in as `now`).  Reachable only if the call at line 1196 had bound. -/
def summary_fields (result : Json) (now : String) : QualitySummary :=
  { result := result
    is_passed := jsonEqInt (result.getKey "classification") (-1)
    is_high_risk := decide ((7 : Rat)/10 < jsonNumOrZero (result.getKey "predictedRisk"))
    has_defects := isNotNone (result.getKey "defectType")
    summary_generated_at := now }

/-- `get_quality_summary` (lines 1122-1204): line 1196 is
`result = await get_result_by_id(result_id, base_url)` — but
`get_result_by_id` declares the single parameter `result_id` (line 181), so
this two-positional-argument call raises `TypeError` before any request is
made; the remainder of the body is unreachable. -/
def get_quality_summary (net : Net) (result_id : Int) (now : String) :
    Except PyError QualitySummary × List HttpRequest :=
  match bindCall "get_result_by_id" get_result_by_id_params 2 [] with
  | Except.error e => (Except.error e, [])
  | Except.ok _ =>
    match get_result_by_id net result_id with
    | (Except.error e, log) => (Except.error e, log)
    | (Except.ok result, log) => (Except.ok (summary_fields result now), log)

/-- `page.get(k, 0)` as a number (absent key gives the default `0`). -/
def jsonGetNumOr (j : Json) (k : String) (d : Rat) : Rat :=
  match j.getKey k with
  | some (Json.num q) => q
  | some (Json.bool b) => if b then 1 else 0
  | _ => d

/-- `page.get("content", [])` (line 1290): the page's content array, `[]`
when absent (the page contract makes a present value an array). -/
def contentOf (page : Json) : List Json :=
  match page.getKey "content" with
  | some (Json.arr xs) => xs
  | _ => []

/-- `r.get("qualityScore", 0) or 0` for one result of the content array
(line 1291): absent and `null` (and `0.0`) all give `0`. -/
def qualityScoreOrZero (r : Json) : Rat :=
  jsonNumOrZero (r.getKey "qualityScore")

/-- `len()` of a decoded JSON array (the high-risk endpoint returns a
list). -/
def arrLen (j : Json) : Nat :=
  match j with
  | Json.arr xs => xs.length
  | _ => 0

/-- The dict returned by `get_quality_statistics` (lines 1293-1301), as a
record. -/
structure QualityStatistics where
  total_results : Rat
  passed_count : Rat
  failed_count : Rat
  high_risk_count : Nat
  pass_rate : Rat
  average_quality_score : Rat
  statistics_generated_at : String

/-- The post-fetch computation of `get_quality_statistics`
(lines 1285-1301), applied to the four fetched payloads:
counts are the pages' server-reported `totalElements` (default `0`),
`high_risk_count = len(high_risk_results)`,
`pass_rate = (passed_count / total * 100) if total > 0 else 0`,
`average_quality_score` = mean of `r.get("qualityScore", 0) or 0` over the
all-results page's `content` only, `0` when that content is empty.
Reachable only if the calls at lines 1281-1283 had bound. -/
def quality_statistics_fields (all_results_page passed_page failed_page
    high_risk_body : Json) (now : String) : QualityStatistics :=
  let total := jsonGetNumOr all_results_page "totalElements" 0
  let passed_count := jsonGetNumOr passed_page "totalElements" 0
  let failed_count := jsonGetNumOr failed_page "totalElements" 0
  let content := contentOf all_results_page
  let avg_quality_score :=
    if content.isEmpty then 0
    else (content.map qualityScoreOrZero).sum / (content.length : Rat)
  { total_results := total
    passed_count := passed_count
    failed_count := failed_count
    high_risk_count := arrLen high_risk_body
    pass_rate := if 0 < total then passed_count / total * 100 else 0
    average_quality_score := avg_quality_score
    statistics_generated_at := now }

/-- `get_quality_statistics` (lines 1207-1301): line 1280 first awaits
`get_all_results()` (a real request; its failure propagates).  Line 1281
then calls `get_passed_results(base_url=base_url)`, but `get_passed_results`
declares only `page` and `size` (lines 496-500), so the keyword fails to
bind and `TypeError` is raised there; lines 1282-1301 are unreachable (they
are modelled as the analogous bindings and calls they spell). -/
def get_quality_statistics (net : Net) (now : String) :
    Except PyError QualityStatistics × List HttpRequest :=
  let a := get_all_results net none none
  match a.fst with
  | Except.error e => (Except.error e, a.snd)
  | Except.ok all_results_page =>
    match bindCall "get_passed_results" get_passed_results_params 0 ["base_url"] with
    | Except.error e => (Except.error e, a.snd)
    | Except.ok _ =>
      let p := get_passed_results net none none
      match p.fst with
      | Except.error e => (Except.error e, a.snd ++ p.snd)
      | Except.ok passed_page =>
        match bindCall "get_failed_results" get_failed_results_params 0 ["base_url"] with
        | Except.error e => (Except.error e, a.snd ++ p.snd)
        | Except.ok _ =>
          let f := get_failed_results net none none
          match f.fst with
          | Except.error e => (Except.error e, a.snd ++ p.snd ++ f.snd)
          | Except.ok failed_page =>
            match bindCall "get_high_risk_results" get_high_risk_results_params 0 ["base_url"] with
            | Except.error e => (Except.error e, a.snd ++ p.snd ++ f.snd)
            | Except.ok _ =>
              let h := get_high_risk_results_default net
              match h.fst with
              | Except.error e => (Except.error e, a.snd ++ p.snd ++ f.snd ++ h.snd)
              | Except.ok high_risk_body =>
                (Except.ok (quality_statistics_fields all_results_page
                    passed_page failed_page high_risk_body now),
                 a.snd ++ p.snd ++ f.snd ++ h.snd)

/-- The `try/except` of `safe_get_result` (lines 1324-1331) applied to the
outcome of the guarded block: an `httpx.HTTPStatusError` with status 404
becomes `None` (line 1327-1328) and any other status is re-raised
(line 1329, escaping the whole `try`); a remaining `httpx.HTTPError` — the
transport errors — becomes `None` (lines 1330-1331); a `TypeError` matches
neither handler and propagates. -/
def safe_get_result_handlers (r : Except PyError Json) :
    Except PyError (Option Json) :=
  match r with
  | Except.ok v => Except.ok (some v)
  | Except.error (PyError.httpStatusError 404 _) => Except.ok none
  | Except.error (PyError.httpStatusError s b) =>
      Except.error (PyError.httpStatusError s b)
  | Except.error (PyError.transportError _) => Except.ok none
  | Except.error (PyError.typeError m) => Except.error (PyError.typeError m)

/-- `safe_get_result` (lines 1304-1331): the guarded block (line 1325) is
`return await get_result_by_id(result_id, base_url)` — again a
two-positional-argument call of the one-parameter `get_result_by_id`, so it
raises `TypeError` before any request; the handlers cover only `httpx`
error types. -/
def safe_get_result (net : Net) (result_id : Int) :
    Except PyError (Option Json) × List HttpRequest :=
  match bindCall "get_result_by_id" get_result_by_id_params 2 [] with
  | Except.error e => (safe_get_result_handlers (Except.error e), [])
  | Except.ok _ =>
    match get_result_by_id net result_id with
    | (r, log) => (safe_get_result_handlers r, log)

/-- The `predictedRisk` reading of one element of a results payload
(absent treated as `0`, matching the summary helper's reading). -/
def resultRisk (j : Json) : Rat :=
  jsonNumOrZero (j.getKey "predictedRisk")

/-- Did the call raise a `TypeError`? -/
def raisedTypeError {α : Type} (r : Except PyError α) : Bool :=
  match r with
  | Except.error e => e.isTypeError
  | Except.ok _ => false

/-- The query-parameter mapping the spec prescribes for the paginated
endpoints: a provided argument appears unmodified under its own key, an
omitted argument contributes no key, and omitting both sends no mapping at
all. -/
def page_size_params (page size : Option Int) :
    Option (List (String × ParamValue)) :=
  match page, size with
  | none, none => none
  | some p, none => some [("page", ParamValue.i p)]
  | none, some s => some [("size", ParamValue.i s)]
  | some p, some s => some [("page", ParamValue.i p), ("size", ParamValue.i s)]

/-- Modelled from the spec: the server-side behavior of
`GET /quality/results/high-risk`.  The repository contains only the client;
the spec states the endpoint returns an ordered sequence of quality results
whose `predictedRisk` exceeds the requested threshold. -/
def high_risk_server_contract (t : Rat) (r : HttpResponse) : Prop :=
  ∃ xs, r.body = Json.arr xs ∧ ∀ x ∈ xs, t < resultRisk x

/-- A server that answers every request with status 500 and body `"boom"`. -/
def net500 : Net := fun _ => NetOutcome.resp { status := 500, body := Json.str "boom" }

/-- A server that answers every request with status 404 and body `"nf"`. -/
def net404 : Net := fun _ => NetOutcome.resp { status := 404, body := Json.str "nf" }

/-- The page payload of a server holding no results. -/
def emptyPageJson : Json :=
  Json.obj [("totalPages", Json.num 0), ("totalElements", Json.num 0),
    ("content", Json.arr []), ("empty", Json.bool true)]

/-- A server that answers every request with status 200 and the empty
page. -/
def netEmptyPage : Net :=
  fun _ => NetOutcome.resp { status := 200, body := emptyPageJson }

/-- The spec's end-to-end sample result: id 1, classification -1,
predictedRisk 0.9, defectType absent. -/
def sampleResultJson : Json :=
  Json.obj [("resultId", Json.num 1), ("classification", Json.num (-1)),
    ("predictedRisk", Json.num (9/10))]

/-- A server that answers every request with status 200 and the sample
result. -/
def netSample : Net :=
  fun _ => NetOutcome.resp { status := 200, body := sampleResultJson }

/-- A page reporting 4 total elements. -/
def pageTotal4Json : Json :=
  Json.obj [("totalElements", Json.num 4), ("content", Json.arr [])]

/-- A page reporting 3 total elements. -/
def pageTotal3Json : Json :=
  Json.obj [("totalElements", Json.num 3), ("content", Json.arr [])]

/-- A page whose content carries quality scores 80, absent, null, 90. -/
def scoresPageJson : Json :=
  Json.obj [("totalElements", Json.num 4),
    ("content", Json.arr
      [Json.obj [("qualityScore", Json.num 80)],
       Json.obj [],
       Json.obj [("qualityScore", Json.null)],
       Json.obj [("qualityScore", Json.num 90)]])]

/-- A server that answers every request with status 200 and the scores
page. -/
def netScores : Net :=
  fun _ => NetOutcome.resp { status := 200, body := scoresPageJson }

/-- A high-risk payload: one result with predictedRisk 1. -/
def highRiskBodyJson : Json :=
  Json.arr [Json.obj [("predictedRisk", Json.num 1)]]

/-- A server that answers every request with status 200 and the high-risk
payload. -/
def netHigh : Net :=
  fun _ => NetOutcome.resp { status := 200, body := highRiskBodyJson }

/-- C4: every invocation of `get_quality_summary(result_id)` and of
`safe_get_result(result_id)` raises `TypeError` with an empty request log —
i.e. before any HTTP request is issued — because each passes `base_url` as a
second positional argument to the one-parameter `get_result_by_id`
(lines 1196 and 1325 against line 181); `safe_get_result`'s handlers cover
only `httpx` error types, so the `TypeError` propagates instead of yielding
`None`.  This holds for every server behavior `net`. -/
theorem summary_and_safe_raise_typeerror_before_request
    (net : Net) (result_id : Int) (now : String) :
    get_quality_summary net result_id now =
      (Except.error (PyError.typeError (arity_error_msg "get_result_by_id" 1 2)), []) ∧
    safe_get_result net result_id =
      (Except.error (PyError.typeError (arity_error_msg "get_result_by_id" 1 2)), []) :=
  ⟨rfl, rfl⟩

/-- C1: the claim's described behavior is the evident intent (the summary
record construction at lines 1198-1204 yields exactly the claimed fields on
the spec's sample result), but `get_quality_summary` itself raises
`TypeError` at line 1196 for every id — here evaluated against a server
that would happily serve the sample result for id 1 — and never fetches or
returns anything. -/
theorem get_quality_summary_typeerror_despite_valid_result :
    get_quality_summary netSample 1 "2026-01-01T00:00:00" =
      (Except.error (PyError.typeError (arity_error_msg "get_result_by_id" 1 2)), []) ∧
    (summary_fields sampleResultJson "2026-01-01T00:00:00").is_passed = true ∧
    (summary_fields sampleResultJson "2026-01-01T00:00:00").is_high_risk = true ∧
    (summary_fields sampleResultJson "2026-01-01T00:00:00").has_defects = false := by
  refine ⟨rfl, rfl, ?_, rfl⟩
  simp [summary_fields, sampleResultJson, Json.getKey, jsonNumOrZero, List.lookup]
  norm_num

/-- C2: the handler logic of `safe_get_result` (lines 1324-1331) does map a
404 `HTTPStatusError` and any transport-level `httpx.HTTPError` to `None` —
but the guarded call at line 1325 raises `TypeError` first, for every id
and every server behavior (here a server answering 404 for id 999), so the
function propagates `TypeError` instead of returning `None`. -/
theorem safe_get_result_typeerror_not_none :
    safe_get_result net404 999 =
      (Except.error (PyError.typeError (arity_error_msg "get_result_by_id" 1 2)), []) ∧
    safe_get_result_handlers (Except.error (PyError.httpStatusError 404 (Json.str "nf"))) =
      Except.ok none ∧
    safe_get_result_handlers (Except.error (PyError.transportError "connect timeout")) =
      Except.ok none ∧
    safe_get_result_handlers
        (Except.error (PyError.typeError (arity_error_msg "get_result_by_id" 1 2))) =
      Except.error (PyError.typeError (arity_error_msg "get_result_by_id" 1 2)) :=
  ⟨rfl, rfl, rfl, rfl⟩

/-- C3: the pass-rate expression of `get_quality_statistics` (line 1298)
does compute `passed/total*100` and does yield `0` at `total = 0` — but it
is dead code: the function raises `TypeError` at line 1281 (here evaluated
against a server holding zero results, the very case the claim's guard is
about) and never returns a `pass_rate`. -/
theorem statistics_pass_rate_guard_dead_code :
    (quality_statistics_fields emptyPageJson emptyPageJson emptyPageJson
        (Json.arr []) "t").pass_rate = 0 ∧
    (quality_statistics_fields pageTotal4Json pageTotal3Json pageTotal3Json
        (Json.arr []) "t").pass_rate = 75 ∧
    (get_quality_statistics netEmptyPage "t").fst =
      Except.error (PyError.typeError (kwarg_error_msg "get_passed_results" "base_url")) := by
  refine ⟨rfl, ?_, rfl⟩
  simp only [quality_statistics_fields, jsonGetNumOr, Json.getKey, contentOf,
    pageTotal4Json, pageTotal3Json, List.lookup]
  norm_num

/-- C7: the average-quality-score expression of `get_quality_statistics`
(lines 1290-1291) does average `qualityScore` over the single fetched
page's content with missing/null treated as `0` ((80+0+0+90)/4 = 85/2) and
yields `0` on empty content — but it is dead code: the function raises
`TypeError` at line 1281 and never returns an `average_quality_score`. -/
theorem statistics_average_score_page_only_dead_code :
    (quality_statistics_fields scoresPageJson emptyPageJson emptyPageJson
        (Json.arr []) "t").average_quality_score = 85/2 ∧
    (quality_statistics_fields emptyPageJson emptyPageJson emptyPageJson
        (Json.arr []) "t").average_quality_score = 0 ∧
    (get_quality_statistics netScores "t").fst =
      Except.error (PyError.typeError (kwarg_error_msg "get_passed_results" "base_url")) := by
  refine ⟨?_, rfl, rfl⟩
  simp [quality_statistics_fields, jsonGetNumOr, Json.getKey, contentOf,
    qualityScoreOrZero, jsonNumOrZero, scoresPageJson, List.lookup]
  norm_num

/-- C5 counterexample: not every invocation of `get_quality_statistics`
raises a `TypeError` — when the initial `get_all_results()` call itself
fails (server answering 500), that `httpx.HTTPStatusError` propagates
instead. -/
theorem statistics_http_error_not_typeerror :
    (get_quality_statistics net500 "t").fst =
      Except.error (PyError.httpStatusError 500 (Json.str "boom")) ∧
    raisedTypeError (get_quality_statistics net500 "t").fst = false :=
  ⟨rfl, rfl⟩

/-- C5 (amended): `get_quality_statistics` never returns a statistics
record: whenever the initial `get_all_results()` call succeeds, the
`get_passed_results(base_url=...)` call at line 1281 raises `TypeError`
(none of the three filtered-query functions declares `base_url`), leaving
exactly the one initial request issued; and for every server behavior
whatsoever the outcome is an exception, never a normal return. -/
theorem statistics_never_returns_typeerror_after_first_success
    (net : Net) (now : String) (page : HttpResponse)
    (hresp : net (request_of "GET" "/quality/results" DEFAULT_BASE_URL none none 30) =
      NetOutcome.resp page)
    (hok : 200 ≤ page.status ∧ page.status ≤ 299) :
    (get_quality_statistics net now).fst =
      Except.error (PyError.typeError (kwarg_error_msg "get_passed_results" "base_url")) ∧
    (get_quality_statistics net now).snd =
      [request_of "GET" "/quality/results" DEFAULT_BASE_URL none none 30] ∧
    ∀ n2 : Net, ∀ s2 : String, exceptIsOk (get_quality_statistics n2 s2).fst = false := by
  have hga : get_all_results net none none =
      (Except.ok page.body, [request_of "GET" "/quality/results" DEFAULT_BASE_URL none none 30]) := by
    unfold get_all_results page_size_accum response_json make_request
    simp [hresp, hok, Except.map]
  have hnever : ∀ n2 : Net, ∀ s2 : String,
      exceptIsOk (get_quality_statistics n2 s2).fst = false := by
    intro n2 s2
    unfold get_quality_statistics
    rcases hga2 : get_all_results n2 none none with ⟨fst, log⟩
    cases fst <;> rfl
  refine ⟨?_, ?_, hnever⟩ <;>
    (unfold get_quality_statistics; rw [hga]; rfl)

/-- C5 witness: a concrete server holding zero results answers the first
call with status 200, and the statistics call raises the keyword
`TypeError`. -/
theorem statistics_never_returns_witness :
    (get_quality_statistics netEmptyPage "t").fst =
      Except.error (PyError.typeError (kwarg_error_msg "get_passed_results" "base_url")) ∧
    (get_quality_statistics netEmptyPage "t").snd =
      [request_of "GET" "/quality/results" DEFAULT_BASE_URL none none 30] ∧
    ∀ n2 : Net, ∀ s2 : String, exceptIsOk (get_quality_statistics n2 s2).fst = false :=
  statistics_never_returns_typeerror_after_first_success netEmptyPage "t"
    { status := 200, body := emptyPageJson } rfl (by decide)

/-- C6: the dispatcher builds the request URL as the verbatim concatenation
of base URL and endpoint path, sets both `Content-Type` and `Accept` to
`application/json` on every request, and on any response whose status is
outside 2xx raises an `httpx.HTTPStatusError` carrying that status code and
the response body instead of returning. -/
theorem make_request_url_headers_status_error
    (net : Net) (method endpoint base_url : String) (jd : Option Json)
    (ps : Option (List (String × ParamValue))) (t : Nat) (r : HttpResponse)
    (hresp : net (request_of method endpoint base_url jd ps t) = NetOutcome.resp r)
    (hst : r.status < 200 ∨ 299 < r.status) :
    (request_of method endpoint base_url jd ps t).url = base_url ++ endpoint ∧
    (request_of method endpoint base_url jd ps t).headers =
      [("Content-Type", "application/json"), ("Accept", "application/json")] ∧
    (make_request net method endpoint base_url jd ps t).fst =
      Except.error (PyError.httpStatusError r.status r.body) := by
  have hne : ¬ (200 ≤ r.status ∧ r.status ≤ 299) := by omega
  exact ⟨rfl, rfl, by simp [make_request, hresp, hne]⟩

/-- C6 witness: a GET against a server answering 404 with body `"nf"`. -/
theorem make_request_contract_witness :
    (request_of "GET" "/quality/results/7" DEFAULT_BASE_URL none none 30).url =
      DEFAULT_BASE_URL ++ "/quality/results/7" ∧
    (request_of "GET" "/quality/results/7" DEFAULT_BASE_URL none none 30).headers =
      [("Content-Type", "application/json"), ("Accept", "application/json")] ∧
    (make_request net404 "GET" "/quality/results/7" DEFAULT_BASE_URL none none 30).fst =
      Except.error (PyError.httpStatusError 404 (Json.str "nf")) :=
  make_request_url_headers_status_error net404 "GET" "/quality/results/7"
    DEFAULT_BASE_URL none none 30 { status := 404, body := Json.str "nf" }
    rfl (by decide)

/-- C8: for `get_all_results`, `get_passed_results` and
`get_failed_results`, the single issued request carries exactly the
query-parameter mapping of the case table `page_size_params`: a provided
argument appears unmodified under its own key, an omitted argument
contributes no key, and when both are omitted no parameter mapping is sent
at all. -/
theorem page_size_params_passthrough (net : Net) (page size : Option Int) :
    (get_all_results net page size).snd.map HttpRequest.params =
      [page_size_params page size] ∧
    (get_passed_results net page size).snd.map HttpRequest.params =
      [page_size_params page size] ∧
    (get_failed_results net page size).snd.map HttpRequest.params =
      [page_size_params page size] := by
  refine ⟨?_, ?_, ?_⟩ <;> (cases page <;> cases size <;> rfl)

/-- C9: the client sends the threshold (default 0.7) to the server as the
`threshold` query parameter and returns the decoded body unchanged; under
the spec-modelled server contract for the high-risk endpoint, every element
of the returned sequence therefore satisfies `predictedRisk > t` and no
other element is included. -/
theorem high_risk_results_filter_and_threshold_param
    (net : Net) (t : Rat) (r : HttpResponse)
    (hresp : net (request_of "GET" "/quality/results/high-risk" DEFAULT_BASE_URL
      none (some [("threshold", ParamValue.f t)]) 30) = NetOutcome.resp r)
    (hst : 200 ≤ r.status ∧ r.status ≤ 299)
    (hcontract : high_risk_server_contract t r) :
    (∃ ys, (get_high_risk_results net t).fst = Except.ok (Json.arr ys) ∧
      ∀ y ∈ ys, t < resultRisk y) ∧
    (get_high_risk_results net t).snd.map HttpRequest.params =
      [some [("threshold", ParamValue.f t)]] ∧
    (get_high_risk_results_default net).snd.map HttpRequest.params =
      [some [("threshold", ParamValue.f high_risk_default_threshold)]] := by
  obtain ⟨xs, hbody, hfilter⟩ := hcontract
  refine ⟨⟨xs, ?_, hfilter⟩, rfl, rfl⟩
  unfold get_high_risk_results response_json make_request
  simp [hresp, hst, hbody, Except.map]

/-- C9 witness: threshold 0, a server answering one result of
predictedRisk 1. -/
theorem high_risk_results_witness :
    (∃ ys, (get_high_risk_results netHigh 0).fst = Except.ok (Json.arr ys) ∧
      ∀ y ∈ ys, (0 : Rat) < resultRisk y) ∧
    (get_high_risk_results netHigh 0).snd.map HttpRequest.params =
      [some [("threshold", ParamValue.f 0)]] ∧
    (get_high_risk_results_default netHigh).snd.map HttpRequest.params =
      [some [("threshold", ParamValue.f high_risk_default_threshold)]] :=
  high_risk_results_filter_and_threshold_param netHigh 0
    { status := 200, body := highRiskBodyJson } rfl (by decide)
    ⟨[Json.obj [("predictedRisk", Json.num 1)]], rfl, by decide⟩

/-- C10: no public function of the module accepts a per-call base-URL or
timeout override: none of the declared parameter lists contains `base_url`
or `timeout`; attempting to pass either as a keyword raises `TypeError`;
and — for every server behavior and all arguments — every request each
endpoint function issues targets the default base URL
`http://localhost:8080/api/v1` with the fixed 30-second timeout. -/
theorem no_per_call_base_url_or_timeout_override
    (net : Net) (rid lotid : Int) (page size : Option Int) (t : Rat) (dt : String) :
    ([get_result_by_id_params, get_all_results_params, get_passed_results_params,
      get_result_by_lot_id_params, get_high_risk_results_params,
      get_failed_results_params, get_results_by_defect_type_params,
      get_quality_summary_params, get_quality_statistics_params,
      safe_get_result_params].all
        (fun l => ¬ l.contains "base_url" ∧ ¬ l.contains "timeout")) = true ∧
    bindCall "get_result_by_id" get_result_by_id_params 1 ["base_url"] =
      Except.error (PyError.typeError (kwarg_error_msg "get_result_by_id" "base_url")) ∧
    bindCall "get_all_results" get_all_results_params 0 ["timeout"] =
      Except.error (PyError.typeError (kwarg_error_msg "get_all_results" "timeout")) ∧
    (get_result_by_id net rid).snd.map HttpRequest.url =
      [DEFAULT_BASE_URL ++ ("/quality/results/" ++ toString rid)] ∧
    (get_result_by_id net rid).snd.map HttpRequest.timeout = [30] ∧
    (get_all_results net page size).snd.map HttpRequest.url =
      [DEFAULT_BASE_URL ++ "/quality/results"] ∧
    (get_all_results net page size).snd.map HttpRequest.timeout = [30] ∧
    (get_passed_results net page size).snd.map HttpRequest.url =
      [DEFAULT_BASE_URL ++ "/quality/results/passed"] ∧
    (get_passed_results net page size).snd.map HttpRequest.timeout = [30] ∧
    (get_result_by_lot_id net lotid).snd.map HttpRequest.url =
      [DEFAULT_BASE_URL ++ ("/quality/results/lot/" ++ toString lotid)] ∧
    (get_result_by_lot_id net lotid).snd.map HttpRequest.timeout = [30] ∧
    (get_high_risk_results net t).snd.map HttpRequest.url =
      [DEFAULT_BASE_URL ++ "/quality/results/high-risk"] ∧
    (get_high_risk_results net t).snd.map HttpRequest.timeout = [30] ∧
    (get_failed_results net page size).snd.map HttpRequest.url =
      [DEFAULT_BASE_URL ++ "/quality/results/failed"] ∧
    (get_failed_results net page size).snd.map HttpRequest.timeout = [30] ∧
    (get_results_by_defect_type net dt).snd.map HttpRequest.url =
      [DEFAULT_BASE_URL ++ ("/quality/results/defect/" ++ dt)] ∧
    (get_results_by_defect_type net dt).snd.map HttpRequest.timeout = [30] := by
  refine ⟨by decide, rfl, rfl, rfl, rfl, rfl, rfl, rfl, rfl, rfl, rfl, rfl,
    rfl, rfl, rfl, rfl, rfl⟩
